import Mathlib

/-!
# CyberGuard phishing-detection frontend — verification of spec claims

Shallow embedding of the CyberGuard repository's frontend code:
the legacy vanilla-JS dashboard (`dashboard.js`), the shared API service
(`api.js`), the React landing page / dashboard (`App.jsx`, `Login.jsx`
second document = `Dashboard`), and the Supabase client factory
(`supabaseClient.js`).  JavaScript numbers appearing as integer risk
scores are modelled as `Int`; fractional quantities (confidence,
detection accuracy, breakdown weights) as `ℚ`; strings as `String`;
exceptions as `Except`; `null`/`undefined` as `Option`.
-/

namespace CyberGuard

/-! ## Legacy dashboard: severity staircase (dashboard.js, getSeverity) -/

/-- Embedding of `getSeverity(riskScore)` from the legacy dashboard:
`if (riskScore >= 76) return 'CRITICAL'; if (riskScore >= 51) return 'HIGH';
if (riskScore >= 26) return 'MEDIUM'; return 'LOW';`. -/
def getSeverity (riskScore : Int) : String :=
  if riskScore ≥ 76 then "CRITICAL"
  else if riskScore ≥ 51 then "HIGH"
  else if riskScore ≥ 26 then "MEDIUM"
  else "LOW"

/-! ## React result views: risk-score colouring (App.jsx LandingPage,
Login.jsx second document Dashboard analysis tab) -/

/-- Embedding of the risk-score colour class chosen by `LandingPage` in
`App.jsx`: `result.risk_score > 70 ? 'text-critical' : result.risk_score > 30
? 'text-warning' : 'text-success'`. -/
def landingRiskColor (riskScore : Int) : String :=
  if riskScore > 70 then "text-critical"
  else if riskScore > 30 then "text-warning"
  else "text-success"

/-- Embedding of the risk-score colour class chosen by the React
`Dashboard` analysis tab in `Login.jsx` (second document):
`result.risk_score > 70 ? 'text-critical' : result.risk_score > 30 ?
'text-warning' : 'text-success'`. -/
def dashboardRiskColor (riskScore : Int) : String :=
  if riskScore > 70 then "text-critical"
  else if riskScore > 30 then "text-warning"
  else "text-success"

end CyberGuard

/-! ## C1 — severity staircase boundaries -/

/-- **C1.** For every integer risk score in [0,100], `getSeverity` returns
CRITICAL exactly when the score is ≥ 76, HIGH exactly when it is in
[51,75], MEDIUM exactly when it is in [26,50], and LOW otherwise; in
particular 76 ↦ CRITICAL, 75, 51 ↦ HIGH, 50, 26 ↦ MEDIUM, 25 ↦ LOW. -/
theorem c1_getSeverity_staircase (r : Int) (hlo : 0 ≤ r) (hhi : r ≤ 100) :
    (CyberGuard.getSeverity r = "CRITICAL" ↔ 76 ≤ r) ∧
    (CyberGuard.getSeverity r = "HIGH" ↔ 51 ≤ r ∧ r ≤ 75) ∧
    (CyberGuard.getSeverity r = "MEDIUM" ↔ 26 ≤ r ∧ r ≤ 50) ∧
    (CyberGuard.getSeverity r = "LOW" ↔ r ≤ 25) ∧
    CyberGuard.getSeverity 76 = "CRITICAL" ∧
    CyberGuard.getSeverity 75 = "HIGH" ∧
    CyberGuard.getSeverity 51 = "HIGH" ∧
    CyberGuard.getSeverity 50 = "MEDIUM" ∧
    CyberGuard.getSeverity 26 = "MEDIUM" ∧
    CyberGuard.getSeverity 25 = "LOW" := by
  unfold CyberGuard.getSeverity
  refine ⟨?_, ?_, ?_, ?_, by decide, by decide, by decide, by decide,
    by decide, by decide⟩ <;>
  · split_ifs with h1 h2 h3 <;> constructor <;> intro hx <;>
      first
        | omega
        | (exfalso; revert hx; decide)
        | rfl

/-- Witness for C1 at risk score 76. -/
theorem c1_getSeverity_staircase_witness :
    CyberGuard.getSeverity 76 = "CRITICAL" ↔ 76 ≤ (76 : Int) :=
  (c1_getSeverity_staircase 76 (by decide) (by decide)).1

/-! ## C2 — do the React risk-score bands reproduce the 26/51/76 staircase? -/

/-- **C2, counterexample.** The React result views do *not* reproduce the
legacy 26/51/76 staircase: risk scores 51 and 75 fall in the same legacy
severity bucket (HIGH), yet the React landing page colours them
differently (warning vs critical); likewise 30 and 50 are both MEDIUM in
the legacy bucketing yet coloured differently (success vs warning).  So
the band assigned by the React colouring is not in agreement with the
bucket assigned by `getSeverity`. -/
theorem c2_bands_disagree_counterexample :
    (CyberGuard.getSeverity 51 = CyberGuard.getSeverity 75 ∧
      CyberGuard.landingRiskColor 51 ≠ CyberGuard.landingRiskColor 75) ∧
    (CyberGuard.getSeverity 30 = CyberGuard.getSeverity 50 ∧
      CyberGuard.landingRiskColor 30 ≠ CyberGuard.landingRiskColor 50) := by
  decide

/-- **C2, amended.** The two React result views (landing page in `App.jsx`
and the dashboard analysis tab in `Login.jsx`) agree with *each other* on
every risk score, both using a three-band staircase with breakpoints at 30
and 70: critical when risk_score > 70, warning when 30 < risk_score ≤ 70,
success otherwise.  This staircase differs from the legacy dashboard's
26/51/76 `getSeverity` staircase. -/
theorem c2_react_bands_agree (r : Int) :
    CyberGuard.landingRiskColor r = CyberGuard.dashboardRiskColor r ∧
    (CyberGuard.landingRiskColor r = "text-critical" ↔ 70 < r) ∧
    (CyberGuard.landingRiskColor r = "text-warning" ↔ 30 < r ∧ r ≤ 70) ∧
    (CyberGuard.landingRiskColor r = "text-success" ↔ r ≤ 30) := by
  unfold CyberGuard.landingRiskColor CyberGuard.dashboardRiskColor
  refine ⟨rfl, ?_, ?_, ?_⟩ <;>
  · split_ifs with h1 h2 <;> constructor <;> intro hx <;>
      first
        | omega
        | (exfalso; revert hx; decide)
        | rfl

/-! ## C3 — empty / whitespace-only input and the analyze request -/

namespace CyberGuard

/-- The whitespace characters removed by JavaScript's
`String.prototype.trim` that can occur in a URL input field (space, tab,
line feed, carriage return, vertical tab, form feed). -/
def isJsSpace (c : Char) : Bool :=
  c = ' ' || c = '\t' || c = '\n' || c = '\r' ||
    c = Char.ofNat 11 || c = Char.ofNat 12

/-- JavaScript `String.prototype.trim`: drop whitespace from both ends. -/
def jsTrim (s : String) : String :=
  String.mk (((s.data.dropWhile isJsSpace).reverse.dropWhile isJsSpace).reverse)

/-- Embedding of the input guard of the legacy dashboard's `analyzeURL`:
`const url = urlInput.value.trim(); if (!url) { alert(...); return; }`
followed by `fetch(API_BASE + '/analyze-url', ...)`.  A JS string is
falsy exactly when it is empty, so the function returns whether a request
to `/api/analyze-url` is performed for the given raw input value. -/
def analyzeURL_sendsRequest (input : String) : Bool :=
  !(jsTrim input).data.isEmpty

/-- Embedding of the input guard of the React `handleAnalyze`
(`App.jsx`): `if (!url) return;` followed by `api.analyzeUrl(url)`.
A request is performed iff the `url` state is non-empty (no trimming). -/
def handleAnalyze_sendsRequest (url : String) : Bool :=
  !url.data.isEmpty

end CyberGuard

/-- **C3, counterexample.** A whitespace-only input: the single space
consists only of whitespace (its trim is empty), the legacy `analyzeURL`
performs no request for it, but the React `handleAnalyze` *does* perform
a request to `/api/analyze-url`, because its guard `if (!url) return`
only catches the empty string and does not trim. -/
theorem c3_whitespace_only_counterexample :
    CyberGuard.jsTrim " " = "" ∧
    CyberGuard.analyzeURL_sendsRequest " " = false ∧
    CyberGuard.handleAnalyze_sendsRequest " " = true := by
  refine ⟨?_, ?_, ?_⟩ <;> decide

/-- **C3, amended.** The legacy dashboard's `analyzeURL` performs no
request exactly when the trimmed input is empty (so for every empty or
whitespace-only input), while the React `handleAnalyze` performs no
request exactly when the `url` state is the empty string — a
whitespace-only url does trigger a request in the React path. -/
theorem c3_empty_input_no_request (s : String) :
    (CyberGuard.analyzeURL_sendsRequest s = false ↔
      CyberGuard.jsTrim s = "") ∧
    (CyberGuard.handleAnalyze_sendsRequest s = false ↔ s = "") := by
  unfold CyberGuard.analyzeURL_sendsRequest CyberGuard.handleAnalyze_sendsRequest
  simp only [Bool.not_eq_false', List.isEmpty_iff]
  constructor
  · exact ⟨fun h => String.ext (h.trans rfl), fun h => by rw [h]⟩
  · exact ⟨fun h => String.ext (h.trans rfl), fun h => by rw [h]⟩

/-! ## C4 — failed analysis reported as a service error, never a verdict -/

namespace CyberGuard

/-- The body of a successful `POST /api/analyze-url` response:
`{ prediction, confidence, risk_score, threat_type, timestamp }`. -/
structure AnalysisResult where
  prediction : String
  confidence : ℚ
  risk_score : Int
  threat_type : Option String
  timestamp : String
deriving Repr, DecidableEq

/-- A fetch response as observed by `api.analyzeUrl`: the `ok` flag and
the JSON body that `response.json()` would produce. -/
structure FetchResponse where
  ok : Bool
  json : AnalysisResult
deriving Repr, DecidableEq

/-- Embedding of `api.analyzeUrl` (`api.js`): `if (!response.ok) throw
new Error('Analysis failed'); return await response.json();` — the outer
`catch` only logs and rethrows, so the observable behaviour is: throw on
a non-ok response, otherwise return the parsed body. -/
def api_analyzeUrl (resp : FetchResponse) : Except String AnalysisResult :=
  if resp.ok then Except.ok resp.json else Except.error "Analysis failed"

/-- The `result` / `error` state of `LandingPage` after `handleAnalyze`
finishes. -/
structure LandingState where
  result : Option AnalysisResult
  error : Option String
deriving Repr, DecidableEq

/-- Embedding of the React `handleAnalyze` (`App.jsx`): it first sets
`error` and `result` to null, then on success stores the data in
`result`, and on a thrown error sets the fixed error message, leaving
`result` null. -/
def handleAnalyze (resp : FetchResponse) : LandingState :=
  match api_analyzeUrl resp with
  | Except.ok data => { result := some data, error := none }
  | Except.error _ =>
      { result := none, error := some "Analysis failed. Please try again." }

/-- The verdict heading rendered by `LandingPage`: shown only when
`result` is non-null; 'Phishing Detected' when `result.prediction ===
'Phishing'`, otherwise 'Legitimate URL'. -/
def renderedVerdict (st : LandingState) : Option String :=
  st.result.map (fun r =>
    if r.prediction = "Phishing" then "Phishing Detected" else "Legitimate URL")

end CyberGuard

/-- **C4.** For every non-ok response to `POST /api/analyze-url`,
`api.analyzeUrl` throws (returns no result value), and `handleAnalyze`
leaves `result` null and sets the error message; consequently no verdict
(neither 'Phishing Detected' nor 'Legitimate URL') is rendered for a
failed analysis. -/
theorem c4_failed_analysis_is_service_error (resp : CyberGuard.FetchResponse)
    (h : resp.ok = false) :
    CyberGuard.api_analyzeUrl resp = Except.error "Analysis failed" ∧
    (CyberGuard.handleAnalyze resp).result = none ∧
    (CyberGuard.handleAnalyze resp).error =
      some "Analysis failed. Please try again." ∧
    CyberGuard.renderedVerdict (CyberGuard.handleAnalyze resp) = none := by
  have hapi : CyberGuard.api_analyzeUrl resp = Except.error "Analysis failed" := by
    unfold CyberGuard.api_analyzeUrl
    rw [h]
    rfl
  refine ⟨hapi, ?_, ?_, ?_⟩ <;>
    simp [CyberGuard.handleAnalyze, CyberGuard.renderedVerdict, hapi]

/-- Witness for C4 at a concrete non-ok response carrying a phishing-shaped
body: even then the caller shows a service error and no verdict. -/
theorem c4_failed_analysis_is_service_error_witness :
    (CyberGuard.FetchResponse.mk false
        (CyberGuard.AnalysisResult.mk "Phishing" (92/100) 92
          (some "Brand Impersonation") "2026-02-05T10:35:57Z")).ok = false ∧
    CyberGuard.renderedVerdict (CyberGuard.handleAnalyze
      (CyberGuard.FetchResponse.mk false
        (CyberGuard.AnalysisResult.mk "Phishing" (92/100) 92
          (some "Brand Impersonation") "2026-02-05T10:35:57Z"))) = none :=
  ⟨rfl, (c4_failed_analysis_is_service_error _ rfl).2.2.2⟩

/-! ## C5 — threat_type is null iff prediction is Legitimate -/

namespace CyberGuard

/-- The binary verdict of the pipeline. -/
inductive Prediction where
  | Phishing
  | Legitimate
deriving Repr, DecidableEq

/-- The closed threat-type taxonomy of the spec's data model. -/
inductive ThreatType where
  | brandImpersonation
  | credentialHarvesting
  | malwareDistribution
  | socialEngineering
  | otherUnclassified
deriving Repr, DecidableEq

/-- The lexical signals consumed by the threat-type attribution rules. -/
structure LexicalSignals where
  brandTokenMatch : Bool
  credentialFormTokens : Bool
  malwareTokens : Bool
  socialEngineeringTokens : Bool
deriving Repr, DecidableEq

/-- Modelled from the spec: the backend `ThreatTypeClassifier` is not
under `src/` (only its frontend consumers are).  Per the spec it is an
ordered list of tagged matchers — brand-token match → Brand
Impersonation; credential-form tokens without a brand match → Credential
Harvesting; malware / social-engineering token sets → their labels — and
Other/Unclassified is the default when confidence is below the 0.6
attribution threshold or no rule matches. -/
def threatTypeClassifier (sig : LexicalSignals) (confidence : ℚ) : ThreatType :=
  if confidence < 6/10 then ThreatType.otherUnclassified
  else if sig.brandTokenMatch then ThreatType.brandImpersonation
  else if sig.credentialFormTokens then ThreatType.credentialHarvesting
  else if sig.malwareTokens then ThreatType.malwareDistribution
  else if sig.socialEngineeringTokens then ThreatType.socialEngineering
  else ThreatType.otherUnclassified

/-- Modelled from the spec: the attribution stage of the backend
`AnalysisPipeline` is not under `src/`.  Per the spec the
`ThreatTypeClassifier` is "invoked only when prediction = Phishing" and
"a Legitimate result always carries threat_type = null". -/
def attributeThreat (pred : Prediction) (sig : LexicalSignals)
    (confidence : ℚ) : Option ThreatType :=
  match pred with
  | Prediction.Legitimate => none
  | Prediction.Phishing => some (threatTypeClassifier sig confidence)

/-- The `ClassificationResult` record of the spec's data model. -/
structure ClassificationResult where
  prediction : Prediction
  confidence : ℚ
  risk_score : Int
  threat_type : Option ThreatType
deriving Repr, DecidableEq

/-- Modelled from the spec: the backend `AnalysisPipeline` assembling a
`ClassificationResult` (not under `src/`); its threat_type field is
produced by the attribution stage. -/
def mkClassificationResult (pred : Prediction) (confidence : ℚ)
    (risk : Int) (sig : LexicalSignals) : ClassificationResult :=
  { prediction := pred
    confidence := confidence
    risk_score := risk
    threat_type := attributeThreat pred sig confidence }

end CyberGuard

/-- **C5.** In every `ClassificationResult` produced by the (spec-modelled)
analyze pipeline, threat_type is null iff the prediction is Legitimate:
a Legitimate result always carries threat_type = null, and a Phishing
result always carries some taxonomy label. -/
theorem c5_threat_type_null_iff_legitimate (pred : CyberGuard.Prediction)
    (confidence : ℚ) (risk : Int) (sig : CyberGuard.LexicalSignals) :
    ((CyberGuard.mkClassificationResult pred confidence risk sig).threat_type
        = none ↔ pred = CyberGuard.Prediction.Legitimate) ∧
    (pred = CyberGuard.Prediction.Phishing →
      ∃ t, (CyberGuard.mkClassificationResult pred confidence risk
        sig).threat_type = some t) := by
  cases pred <;>
    simp [CyberGuard.mkClassificationResult, CyberGuard.attributeThreat]

/-! ## C6 — threat-type labels vs the closed taxonomy -/

namespace CyberGuard

/-- Embedding of the default threat breakdown of `updateDonutChart`
(`dashboard.js`): the object literal used when the stats response carries
no (or an empty) `threat_breakdown`. -/
def defaultThreatBreakdown : List (String × ℚ) :=
  [("Brand Impersonation", 45/100),
   ("Credential Harvesting", 32/100),
   ("Malware Distribution", 15/100),
   ("Social Engineering", 5/100),
   ("Other / Unclassified", 3/100)]

/-- The labels (object keys, in insertion order) of the default threat
breakdown. -/
def defaultThreatBreakdownLabels : List String :=
  defaultThreatBreakdown.map Prod.fst

/-- Modelled from the spec: the member names of the closed
`ThreatTypeTaxonomy` enum as the spec writes them — the comparison side
of this refinement claim. -/
def threatTypeTaxonomyNames : List String :=
  ["Brand Impersonation", "Credential Harvesting", "Malware Distribution",
   "Social Engineering", "Other/Unclassified"]

/-- Remove all space characters from a string (used to compare labels up
to spacing). -/
def stripSpaces (s : String) : String :=
  String.mk (s.data.filter (fun c => c ≠ ' '))

end CyberGuard

/-- **C6, counterexample.** The fifth label of the dashboard's default
threat breakdown is the string 'Other / Unclassified' (with spaces around
the slash), which is not a member of the spec's taxonomy, whose fifth
member is written 'Other/Unclassified'; so not every label used in the
default breakdown is a taxonomy member verbatim. -/
theorem c6_fifth_label_not_taxonomy_member :
    CyberGuard.defaultThreatBreakdownLabels.contains "Other / Unclassified"
        = true ∧
    CyberGuard.threatTypeTaxonomyNames.contains "Other / Unclassified"
        = false := by
  constructor <;> decide

/-- **C6, amended.** The dashboard's default threat breakdown has exactly
five labels; its first four are verbatim the taxonomy's first four
members (Brand Impersonation, Credential Harvesting, Malware
Distribution, Social Engineering), and after removing spaces the five
labels coincide with the five taxonomy member names — the only deviation
is that the code writes the fifth label 'Other / Unclassified' with
spaces around the slash, while the taxonomy writes 'Other/Unclassified'. -/
theorem c6_labels_match_taxonomy_up_to_spacing :
    CyberGuard.defaultThreatBreakdownLabels.length = 5 ∧
    CyberGuard.defaultThreatBreakdownLabels.take 4 =
      CyberGuard.threatTypeTaxonomyNames.take 4 ∧
    CyberGuard.defaultThreatBreakdownLabels.map CyberGuard.stripSpaces =
      CyberGuard.threatTypeTaxonomyNames.map CyberGuard.stripSpaces := by
  refine ⟨rfl, ?_, ?_⟩ <;> decide

/-! ## C7 — the stats response fields consumed by the dashboards -/

namespace CyberGuard

/-- Modelled from the spec: the six fields of the `GET /api/stats`
response named by the external-interface contract. -/
def statsSchemaFields : List String :=
  ["total_analyzed", "phishing_detected", "detection_accuracy",
   "avg_response_time_ms", "today_count", "threat_breakdown"]

/-- The fields the legacy dashboard's `loadStatistics` reads from the
stats response (`data.…` accesses, in code order; `avg_response_time_ms`
is read twice). -/
def loadStatistics_fieldsRead : List String :=
  ["total_analyzed", "detection_accuracy", "avg_response_time_ms",
   "today_count", "avg_response_time_ms", "threat_breakdown"]

/-- The fields the React `Dashboard` (`Login.jsx`, second document) reads
from the stats state (`stats?.…` accesses over the overview tab). -/
def dashboardStats_fieldsRead : List String :=
  ["total_analyzed", "today_count", "phishing_detected",
   "detection_accuracy", "avg_response_time_ms", "threat_breakdown"]

/-- Embedding of the accuracy display of `loadStatistics`
(`dashboard.js`): the numeric value rendered is
`data.detection_accuracy * 100` (before `toFixed(0)` formatting). -/
def loadStatistics_accuracyPercent (detectionAccuracy : ℚ) : ℚ :=
  detectionAccuracy * 100

/-- Embedding of the accuracy display of the React `Dashboard`
(`Login.jsx`): `((stats?.detection_accuracy || 0) * 100)` (before
`toFixed(0)` formatting) — a missing value is replaced by 0. -/
def dashboardAccuracyPercent (detectionAccuracy : Option ℚ) : ℚ :=
  detectionAccuracy.getD 0 * 100

end CyberGuard

/-- **C7.** Every field either dashboard reads from the `GET /api/stats`
response is one of the six schema fields (total_analyzed,
phishing_detected, detection_accuracy, avg_response_time_ms, today_count,
threat_breakdown); and `detection_accuracy`, consumed as a fraction in
[0,1], is multiplied by 100 for display, yielding a percentage in
[0,100] in both dashboards. -/
theorem c7_stats_fields_and_accuracy_display (a : ℚ)
    (h0 : 0 ≤ a) (h1 : a ≤ 1) :
    ((CyberGuard.loadStatistics_fieldsRead ++
        CyberGuard.dashboardStats_fieldsRead).all
      (fun f => CyberGuard.statsSchemaFields.contains f)) = true ∧
    CyberGuard.loadStatistics_accuracyPercent a = a * 100 ∧
    CyberGuard.dashboardAccuracyPercent (some a) = a * 100 ∧
    0 ≤ CyberGuard.loadStatistics_accuracyPercent a ∧
    CyberGuard.loadStatistics_accuracyPercent a ≤ 100 := by
  refine ⟨by decide, rfl, rfl, ?_, ?_⟩ <;>
    unfold CyberGuard.loadStatistics_accuracyPercent <;> nlinarith

/-- Witness for C7 at the repository's advertised 94% accuracy value. -/
theorem c7_stats_fields_and_accuracy_display_witness :
    (0 ≤ (94/100 : ℚ) ∧ (94/100 : ℚ) ≤ 1) ∧
    CyberGuard.loadStatistics_accuracyPercent (94/100) = (94/100) * 100 :=
  ⟨⟨by norm_num, by norm_num⟩,
    (c7_stats_fields_and_accuracy_display (94/100) (by norm_num)
      (by norm_num)).2.1⟩

/-! ## C8 — React dashboard threat-breakdown legend percentages -/

namespace CyberGuard

/-- JavaScript `Number.prototype.toFixed(0)` on the values at hand:
round to the nearest integer, ties to the larger integer. -/
def jsToFixed0 (q : ℚ) : ℤ := ⌊q + 1/2⌋

/-- Embedding of the legend denominator in the React `Dashboard`
(`Login.jsx`): `Object.values(stats?.threat_breakdown || {}).reduce((a, b)
=> a + b, 1)` — a left fold of addition over the breakdown values with
initial accumulator 1. -/
def legendDenominator (vs : List ℚ) : ℚ :=
  vs.foldl (· + ·) 1

/-- Embedding of the percentage displayed for one legend entry:
`((entry.value / (…reduce((a, b) => a + b, 1))) * 100).toFixed(0)`. -/
def legendPercent (v : ℚ) (vs : List ℚ) : ℤ :=
  jsToFixed0 (v / legendDenominator vs * 100)

/-- Left-folding addition from accumulator `a` adds the list sum to `a`. -/
theorem foldl_add_eq_add_sum (vs : List ℚ) (a : ℚ) :
    vs.foldl (· + ·) a = a + vs.sum := by
  induction vs generalizing a with
  | nil => simp
  | cons v t ih => simp [List.foldl_cons, ih, List.sum_cons]; ring

/-- Summing a list after multiplying each element by a constant. -/
theorem sum_map_mul_const (vs : List ℚ) (c : ℚ) :
    (vs.map (fun v => v * c)).sum = vs.sum * c := by
  induction vs with
  | nil => simp
  | cons v t ih => simp [List.map_cons, List.sum_cons, ih]; ring

end CyberGuard

/-- **C8, counterexample.** A breakdown of five positive values 8 each:
the denominator is `1 + 40 = 41`, every entry displays
`(8/41*100).toFixed(0) = 20`, and the displayed legend percentages sum to
exactly 100 — not strictly less than 100 as claimed, because `toFixed(0)`
rounds 19.51… up to 20. -/
theorem c8_rounded_sum_reaches_100_counterexample :
    (0 : ℚ) < 8 ∧
    (([8, 8, 8, 8, 8] : List ℚ).map
      (fun v => CyberGuard.legendPercent v [8, 8, 8, 8, 8])).sum = 100 := by
  constructor
  · norm_num
  · have hd : CyberGuard.legendDenominator [8, 8, 8, 8, 8] = 41 := by
      norm_num [CyberGuard.legendDenominator]
    have h : CyberGuard.legendPercent 8 [8, 8, 8, 8, 8] = 20 := by
      rw [CyberGuard.legendPercent, hd, CyberGuard.jsToFixed0]
      norm_num [Int.floor_eq_iff]
    simp [h]

/-- **C8, amended.** In the React Dashboard's threat-breakdown legend,
the percentage displayed for an entry equals that entry's value divided
by (1 plus the sum of all breakdown values), multiplied by 100 and
rounded to an integer; the sum of the *unrounded* percentages is strictly
less than 100 for every breakdown with nonnegative values, but after
rounding the displayed percentages can sum to exactly 100. -/
theorem c8_legend_percent_formula (vs : List ℚ) (h : ∀ v ∈ vs, 0 ≤ v) :
    (∀ v : ℚ, CyberGuard.legendPercent v vs =
      CyberGuard.jsToFixed0 (v / (1 + vs.sum) * 100)) ∧
    (vs.map (fun v => v / (1 + vs.sum) * 100)).sum < 100 := by
  have hden : CyberGuard.legendDenominator vs = 1 + vs.sum :=
    CyberGuard.foldl_add_eq_add_sum vs 1
  constructor
  · intro v
    rw [CyberGuard.legendPercent, hden]
  · have hS : 0 ≤ vs.sum := List.sum_nonneg h
    have hpos : (0 : ℚ) < 1 + vs.sum := by linarith
    have hfun : (fun v : ℚ => v / (1 + vs.sum) * 100) =
        (fun v : ℚ => v * (100 / (1 + vs.sum))) := by
      funext v
      ring
    rw [hfun, CyberGuard.sum_map_mul_const]
    rw [mul_div_assoc'] at *
    rw [div_lt_iff₀ hpos]
    linarith

/-- Witness for C8 (amended) at the default breakdown weights of
`updateDonutChart`: all five values are nonnegative and the unrounded
legend percentages sum to strictly less than 100. -/
theorem c8_legend_percent_formula_witness :
    (0 : ℚ) ≤ 45/100 ∧
    (([45/100, 32/100, 15/100, 5/100, 3/100] : List ℚ).map
      (fun v => v / (1 + ([45/100, 32/100, 15/100, 5/100, 3/100] :
        List ℚ).sum) * 100)).sum < 100 :=
  ⟨by norm_num,
    (c8_legend_percent_formula [45/100, 32/100, 15/100, 5/100, 3/100]
      (by intro v hv; fin_cases hv <;> norm_num)).2⟩

/-! ## C9 — extractDomain is total: hostname on parse success,
truncated fallback on failure -/

namespace CyberGuard

/-- JavaScript `String.prototype.startsWith` on our string model. -/
def jsStartsWith (s pre : String) : Bool :=
  s.data.take pre.data.length == pre.data

/-- The parsed object of a successful `new URL(...)`; `extractDomain`
reads only its `hostname`. -/
structure URLObject where
  hostname : String
deriving Repr, DecidableEq

/-- The argument `extractDomain` passes to the `URL` constructor:
`url.startsWith('http') ? url : 'http://' + url`. -/
def urlConstructorInput (url : String) : String :=
  if jsStartsWith url "http" then url else "http://" ++ url

/-- Embedding of `extractDomain` (`dashboard.js`), parameterised by the
browser's `URL` constructor `parseURL` (returning `none` exactly when
`new URL(...)` would throw): `try { const urlObj = new
URL(url.startsWith('http') ? url : 'http://' + url); return
urlObj.hostname; } catch { return url.substring(0, 30) + '...'; }`. -/
def extractDomain (parseURL : String → Option URLObject)
    (url : String) : String :=
  match parseURL (urlConstructorInput url) with
  | some urlObj => urlObj.hostname
  | none => String.mk (url.data.take 30) ++ "..."

end CyberGuard

/-- **C9.** For every URL-parsing oracle and every input string,
`extractDomain` returns a string without throwing: when the
(http-prefixed, if the input does not start with 'http') input parses, it
returns the parsed hostname; when parsing fails, it returns the first 30
characters of the input followed by '...'. -/
theorem c9_extractDomain_total
    (parseURL : String → Option CyberGuard.URLObject) (url : String) :
    (∀ u, parseURL (CyberGuard.urlConstructorInput url) = some u →
      CyberGuard.extractDomain parseURL url = u.hostname) ∧
    (parseURL (CyberGuard.urlConstructorInput url) = none →
      CyberGuard.extractDomain parseURL url =
        String.mk (url.data.take 30) ++ "...") := by
  constructor
  · intro u hu
    unfold CyberGuard.extractDomain
    rw [hu]
  · intro hn
    unfold CyberGuard.extractDomain
    rw [hn]

/-- Witness for C9: a parser that accepts `http://github.com` with
hostname `github.com`, and one that rejects everything, applied to a
long non-URL input that gets truncated to 30 characters plus '...'. -/
theorem c9_extractDomain_total_witness :
    CyberGuard.extractDomain
      (fun s => if s = "http://github.com"
        then some (CyberGuard.URLObject.mk "github.com") else none)
      "github.com" = "github.com" ∧
    CyberGuard.extractDomain (fun _ => none)
      "aaaaaaaaaaaaaaaaaaaaaaaaaaaaaaaaaaaaaaaa" =
      "aaaaaaaaaaaaaaaaaaaaaaaaaaaaaa..." :=
  ⟨(c9_extractDomain_total _ "github.com").1
      (CyberGuard.URLObject.mk "github.com") (by decide),
    ((c9_extractDomain_total (fun _ => none)
      "aaaaaaaaaaaaaaaaaaaaaaaaaaaaaaaaaaaaaaaa").2 rfl).trans (by decide)⟩

/-! ## C10 — missing Supabase configuration: stub client and
ProtectedRoute redirect -/

namespace CyberGuard

/-- The build-time environment read by `supabaseClient.js`:
`import.meta.env.VITE_SUPABASE_URL` and
`import.meta.env.VITE_SUPABASE_ANON_KEY`, each possibly undefined. -/
structure SupabaseEnv where
  supabaseUrl : Option String
  supabaseAnonKey : Option String
deriving Repr, DecidableEq

/-- JS truthiness of a possibly-undefined string: `undefined` and the
empty string are falsy. -/
def envTruthy (s : Option String) : Bool :=
  match s with
  | none => false
  | some v => !v.data.isEmpty

/-- Embedding of `isSupabaseConfigured` (`supabaseClient.js`):
`supabaseUrl && supabaseUrl.startsWith('https://') && supabaseAnonKey`. -/
def isSupabaseConfigured (env : SupabaseEnv) : Bool :=
  envTruthy env.supabaseUrl &&
    (match env.supabaseUrl with
     | some u => jsStartsWith u "https://"
     | none => false) &&
    envTruthy env.supabaseAnonKey

/-- An authenticated Supabase session (opaque to the frontend code we
model; only its presence matters). -/
structure Session where
  accessToken : String
deriving Repr, DecidableEq

/-- Embedding of the stub's `getSession`: `async () => ({ data: {
session: null } })` — it always resolves to a null session. -/
def stubGetSession : Option Session := none

/-- Embedding of the stub's `signInWithPassword`: `async () => { throw
new Error('Supabase not configured') }`. -/
def stubSignInWithPassword : Except String Session :=
  Except.error "Supabase not configured"

/-- Embedding of the stub's `signUp`: `async () => { throw new
Error('Supabase not configured') }`. -/
def stubSignUp : Except String Session :=
  Except.error "Supabase not configured"

/-- The session `supabase.auth.getSession()` yields under a given
environment: the real client may return a session (`realSession`), the
stub always returns null. -/
def getSessionUnder (env : SupabaseEnv) (realSession : Option Session) :
    Option Session :=
  if isSupabaseConfigured env then realSession else stubGetSession

/-- What `ProtectedRoute` (`App.jsx`) renders once loading finishes. -/
inductive ProtectedRouteView where
  | redirectToLogin
  | dashboard
deriving Repr, DecidableEq

/-- Embedding of `ProtectedRoute` (`App.jsx`) after loading: `if
(!session) return <Navigate to="/login" replace />; return children` —
the children being the `Dashboard`. -/
def protectedRouteRender (session : Option Session) : ProtectedRouteView :=
  match session with
  | none => ProtectedRouteView.redirectToLogin
  | some _ => ProtectedRouteView.dashboard

end CyberGuard

/-- **C10.** Whenever `VITE_SUPABASE_URL` is absent or does not start
with 'https://', or `VITE_SUPABASE_ANON_KEY` is absent, the exported
supabase object is the stub: `isSupabaseConfigured` is false, the
session obtained through `getSession` is null whatever the real backend
would have returned, `signInWithPassword` and `signUp` always throw, and
`ProtectedRoute` never renders the dashboard — it always redirects to
`/login`. -/
theorem c10_unconfigured_supabase_redirects_to_login
    (env : CyberGuard.SupabaseEnv)
    (realSession : Option CyberGuard.Session)
    (h : env.supabaseUrl = none ∨
      (∃ u, env.supabaseUrl = some u ∧
        CyberGuard.jsStartsWith u "https://" = false) ∨
      env.supabaseAnonKey = none) :
    CyberGuard.isSupabaseConfigured env = false ∧
    CyberGuard.getSessionUnder env realSession = none ∧
    CyberGuard.protectedRouteRender
      (CyberGuard.getSessionUnder env realSession) =
        CyberGuard.ProtectedRouteView.redirectToLogin ∧
    CyberGuard.stubSignInWithPassword =
      Except.error "Supabase not configured" ∧
    CyberGuard.stubSignUp = Except.error "Supabase not configured" := by
  have hconf : CyberGuard.isSupabaseConfigured env = false := by
    rcases h with hu | ⟨u, hu, hpre⟩ | hk
    · simp [CyberGuard.isSupabaseConfigured, hu, CyberGuard.envTruthy]
    · simp [CyberGuard.isSupabaseConfigured, hu, hpre, CyberGuard.envTruthy]
    · simp [CyberGuard.isSupabaseConfigured, hk, CyberGuard.envTruthy]
  have hsess : CyberGuard.getSessionUnder env realSession = none := by
    simp [CyberGuard.getSessionUnder, hconf, CyberGuard.stubGetSession]
  refine ⟨hconf, hsess, ?_, rfl, rfl⟩
  rw [hsess]
  rfl

/-- Witness for C10: a URL served over plain http together with a present
anon key still leaves the client unconfigured, the session null, and the
protected route redirecting to /login even though the real backend would
have granted a session. -/
theorem c10_unconfigured_supabase_redirects_to_login_witness :
    (CyberGuard.SupabaseEnv.mk (some "http://project.supabase.co")
        (some "anon-key")).supabaseUrl = some "http://project.supabase.co" ∧
    CyberGuard.jsStartsWith "http://project.supabase.co" "https://" = false ∧
    CyberGuard.protectedRouteRender
      (CyberGuard.getSessionUnder
        (CyberGuard.SupabaseEnv.mk (some "http://project.supabase.co")
          (some "anon-key"))
        (some (CyberGuard.Session.mk "granted"))) =
      CyberGuard.ProtectedRouteView.redirectToLogin :=
  ⟨rfl, by decide,
    (c10_unconfigured_supabase_redirects_to_login
      (CyberGuard.SupabaseEnv.mk (some "http://project.supabase.co")
        (some "anon-key"))
      (some (CyberGuard.Session.mk "granted"))
      (Or.inr (Or.inl ⟨"http://project.supabase.co", rfl,
        by decide⟩))).2.2.1⟩
